import Mathlib

/-!
Shallow embedding of mlx/backend/metal/scaled_dot_product_attention.cpp
(the Metal scaled-dot-product-attention dispatcher) and proofs about its
strategy selection, layout normalization, parameter-block construction,
output-layout planning and dispatch traces.

Tensors are modelled by their metadata (shape, strides, dtype name,
contiguity flags, donatable flag); kernel launches are modelled as a list
of encoder commands recording exactly what the dispatcher binds.
-/

namespace MlxSdpa

/-- Contiguity flags of an array (mlx array::Flags). -/
structure MFlags where
  contiguous : Bool
  row_contiguous : Bool
  col_contiguous : Bool
deriving DecidableEq, Repr

/-- Metadata view of an mlx array: shape, strides, dtype name, flags and
the donatable bit. The dispatcher only reads this metadata. -/
structure MArray where
  shape : List Nat
  strides : List Int
  dtypeName : String
  flags : MFlags
  donatable : Bool
deriving DecidableEq, Repr

/-- Number of dimensions. -/
def MArray.ndim (a : MArray) : Nat := a.shape.length

/-- mlx array::shape(int i): negative indices count from the end. -/
def MArray.shapeAt (a : MArray) (i : Int) : Nat :=
  let j : Int := if i < 0 then i + a.ndim else i
  a.shape.getD j.toNat 0

/-- mlx array::strides(int i): negative indices count from the end. -/
def MArray.strideAt (a : MArray) (i : Int) : Int :=
  let j : Int := if i < 0 then i + a.ndim else i
  a.strides.getD j.toNat 0

/-- Element count (product of the shape). -/
def MArray.size (a : MArray) : Nat := a.shape.prod

/-- Row-major strides of a given shape (suffix products). -/
def rowMajorStrides : List Nat → List Int
  | [] => []
  | _ :: rest => ((rest.prod : Nat) : Int) :: rowMajorStrides rest

/-- Modelled from the spec: the result of the device-side copy primitive
(copy_gpu with CopyType::General into a fresh array), which is external to
this file: a freshly materialized row-major copy with the same shape and
dtype. A fresh array with a single reference is donatable. -/
def rowMajorCopy (a : MArray) : MArray :=
  { shape := a.shape
    strides := rowMajorStrides a.shape
    dtypeName := a.dtypeName
    flags :=
      { contiguous := true
        row_contiguous := true
        col_contiguous := decide (a.shape.prod ≤ 1) }
    donatable := true }

/-- copy_unless from eval_gpu: return the array unchanged when the
predicate holds, otherwise a fresh row-major copy, together with the list
of copies pushed onto the temporaries vector. -/
def copy_unless (pred : MArray → Bool) (arr : MArray) : MArray × List MArray :=
  if pred arr then (arr, []) else (rowMajorCopy arr, [rowMajorCopy arr])

/-- is_contiguous_or_head_seq_transposed from eval_gpu: row contiguous, or
the sequence and head dimensions are transposed in the pattern the vector
kernel accepts. -/
def is_contiguous_or_head_seq_transposed (arr : MArray) : Bool :=
  if arr.flags.row_contiguous then true
  else
    (arr.strides.getD 3 0 == 1) &&
    (arr.strides.getD 2 0 == ((arr.shape.getD 3 0 : Int) * (arr.shape.getD 1 0 : Int))) &&
    (arr.strides.getD 1 0 == (arr.shape.getD 3 0 : Int)) &&
    (arr.strides.getD 0 0 == arr.strides.getD 2 0 * (arr.shape.getD 2 0 : Int))

/-- is_matrix_contiguous from eval_gpu: the head-dim (innermost) stride is 1. -/
def is_matrix_contiguous (arr : MArray) : Bool :=
  arr.strideAt (-1) == 1

/-- Conversion of a C++ int64 value to int32 (two's-complement wrap). -/
def wrap32 (x : Int) : Int := (x + 2 ^ 31) % 2 ^ 32 - 2 ^ 31

/-- Conversion of a C++ int64 value to size_t (uint64 wrap). -/
def wrapU64 (x : Int) : Nat := (x % 2 ^ 64).toNat

/-- Two-pass routing predicate of the vector branch of eval_gpu:
(devc is the last character of the device architecture string, qH and kH
the query/key head counts, kL the key sequence length). -/
def twoPassSelect (devc : Char) (qH kH kL : Nat) : Bool :=
  (devc == 'd' && decide (1024 ≤ kL)) || (decide (kH < qH) && decide (4096 ≤ kL))

/-- Placeholder array for out-of-range input accesses. -/
def dummyArray : MArray :=
  { shape := [], strides := [], dtypeName := "", flags := ⟨false, false, false⟩,
    donatable := false }

/-- Parameter block of the tiled (full) attention kernel (steel AttnParams),
parameterized by the scalar type F carrying the float scale. -/
structure AttnParams (F : Type) where
  B : Int
  H : Int
  D : Int
  qL : Int
  kL : Int
  gqa_factor : Int
  scale : F
  NQ : Int
  NK : Int
  NQ_aligned : Int
  NK_aligned : Int
  qL_rem : Int
  kL_rem : Int
  qL_off : Int
  Q_strides : Int × Int × Int
  K_strides : Int × Int × Int
  V_strides : Int × Int × Int
  O_strides : Int × Int × Int
deriving DecidableEq, Repr

/-- One command recorded against the command encoder. The trace of a call
is a list of these, in issue order. -/
inductive Cmd (F : Type) where
  | setPipeline (baseName : String) (ns : String) (hashName : String)
      (funcConsts : List (Bool × Nat)) : Cmd F
  | setPipelineExact (kernelName : String) : Cmd F
  | setInput (a : MArray) (slot : Nat) : Cmd F
  | setOutput (a : MArray) (slot : Nat) : Cmd F
  | bytesInt (v : Int) (slot : Nat) : Cmd F
  | bytesUSize (v : Nat) (slot : Nat) : Cmd F
  | bytesI32 (v : Int) (slot : Nat) : Cmd F
  | bytesF (v : F) (slot : Nat) : Cmd F
  | bytesParams (p : AttnParams F) (slot : Nat) : Cmd F
  | bytesMaskParams (s0 s1 s2 : Int) (slot : Nat) : Cmd F
  | dispatchTG (grid : Nat × Nat × Nat) (group : Nat × Nat × Nat) : Cmd F
deriving DecidableEq, Repr

/-- Mask stride bound by the vector kernels for the key axis:
int32_t kv_seq_stride = nd >= 1 && m.shape(-1) > 1 ? m.strides()[nd - 1] : 0. -/
def maskKvSeqStride (m : MArray) : Int :=
  wrap32 (if 1 ≤ m.ndim ∧ 1 < m.shapeAt (-1) then m.strides.getD (m.ndim - 1) 0 else 0)

/-- Mask stride bound by the vector kernels for the query axis:
int32_t q_seq_stride = nd >= 2 && m.shape(-2) > 1 ? m.strides()[nd - 2] : 0. -/
def maskQSeqStride (m : MArray) : Int :=
  wrap32 (if 2 ≤ m.ndim ∧ 1 < m.shapeAt (-2) then m.strides.getD (m.ndim - 2) 0 else 0)

/-- Mask stride bound by the vector kernels for the head axis:
int32_t head_stride = nd >= 3 && m.shape(-3) > 1 ? m.strides()[nd - 3] : 0. -/
def maskHeadStride (m : MArray) : Int :=
  wrap32 (if 3 ≤ m.ndim ∧ 1 < m.shapeAt (-3) then m.strides.getD (m.ndim - 3) 0 else 0)

/-- Trace of sdpa_vector: the single-pass vector attention dispatch. -/
def sdpa_vector {F : Type} (q k v out : MArray) (scale : F)
    (mask : Option MArray) : List (Cmd F) :=
  let kname := "sdpa_vector_" ++ q.dtypeName ++ "_" ++ toString (q.shapeAt (-1))
      ++ "_" ++ toString (v.shapeAt (-1))
  let gqa_factor := q.shapeAt 1 / k.shapeAt 1
  let N := k.shapeAt 2
  let B := q.shapeAt 0 * q.shapeAt 1
  let k_head_stride := wrapU64 (k.strides.getD 1 0)
  let k_seq_stride := wrapU64 (k.strides.getD 2 0)
  let v_head_stride := wrapU64 (v.strides.getD 1 0)
  let v_seq_stride := wrapU64 (v.strides.getD 2 0)
  let group_dims : Nat × Nat × Nat := (1024, 1, 1)
  let grid_dims : Nat × Nat × Nat := (B, q.shapeAt 2, 1)
  let has_mask := mask.isSome
  let query_transposed := !q.flags.row_contiguous
  let func_consts : List (Bool × Nat) := [(has_mask, 20), (query_transposed, 21)]
  let hash_name := kname ++ (if has_mask then "_mask" else "_nomask")
      ++ (if query_transposed then "_qt" else "_qnt")
  [Cmd.setPipeline kname "mlx" hash_name func_consts,
   Cmd.setInput q 0, Cmd.setInput k 1, Cmd.setInput v 2,
   Cmd.setOutput out 3,
   Cmd.bytesInt (gqa_factor : Int) 4,
   Cmd.bytesInt (N : Int) 5,
   Cmd.bytesUSize k_head_stride 6,
   Cmd.bytesUSize k_seq_stride 7,
   Cmd.bytesUSize v_head_stride 8,
   Cmd.bytesUSize v_seq_stride 9,
   Cmd.bytesF scale 10] ++
  (match mask with
   | some m =>
     [Cmd.setInput m 11,
      Cmd.bytesI32 (maskKvSeqStride m) 12,
      Cmd.bytesI32 (maskQSeqStride m) 13,
      Cmd.bytesI32 (maskHeadStride m) 14]
   | none => []) ++
  [Cmd.dispatchTG grid_dims group_dims]

/-- Modelled from the spec: a fresh float32 array of the given shape with
plain contiguous (row-major) storage, as produced by constructing an array
and calling set_data(malloc(nbytes)) — array::set_data is external to this
file. -/
def mkFreshF32 (shape : List Nat) : MArray :=
  { shape := shape
    strides := rowMajorStrides shape
    dtypeName := "float32"
    flags :=
      { contiguous := true
        row_contiguous := true
        col_contiguous := decide (shape.prod ≤ 1) }
    donatable := true }

/-- Trace of sdpa_vector_2pass: the two-pass vector attention dispatch.
Returns the command list and the intermediate buffers registered as
stream temporaries (intermediate, sums, maxs). -/
def sdpa_vector_2pass {F : Type} (q k v out : MArray) (scale : F)
    (mask : Option MArray) : List (Cmd F) × List MArray :=
  let kname := "sdpa_vector_2pass_1_" ++ q.dtypeName ++ "_"
      ++ toString (q.shapeAt (-1)) ++ "_" ++ toString (v.shapeAt (-1))
  let gqa_factor := q.shapeAt 1 / k.shapeAt 1
  let N := k.shapeAt 2
  let blocks : Nat := 32
  let B := q.shapeAt 0 * q.shapeAt 1
  let k_head_stride := wrapU64 (k.strides.getD 1 0)
  let k_seq_stride := wrapU64 (k.strides.getD 2 0)
  let v_head_stride := wrapU64 (v.strides.getD 1 0)
  let v_seq_stride := wrapU64 (v.strides.getD 2 0)
  let group_dims : Nat × Nat × Nat := (8 * 32, 1, 1)
  let grid_dims : Nat × Nat × Nat := (B, q.shapeAt 2, blocks)
  let intermediate := mkFreshF32 (out.shape.dropLast ++ [blocks, out.shape.getLastD 0])
  let sums := mkFreshF32 (out.shape.dropLast ++ [blocks])
  let maxs := mkFreshF32 (out.shape.dropLast ++ [blocks])
  let has_mask := mask.isSome
  let query_transposed := !q.flags.row_contiguous
  let func_consts : List (Bool × Nat) := [(has_mask, 20), (query_transposed, 21)]
  let hash_name := kname ++ (if has_mask then "_mask" else "_nomask")
      ++ (if query_transposed then "_qt" else "_qnt")
  let kname2 := "sdpa_vector_2pass_2_" ++ q.dtypeName ++ "_"
      ++ toString (v.shapeAt (-1))
  let cmds :=
    [Cmd.setPipeline kname "mlx" hash_name func_consts,
     Cmd.setInput q 0, Cmd.setInput k 1, Cmd.setInput v 2,
     Cmd.setOutput intermediate 3,
     Cmd.setOutput sums 4,
     Cmd.setOutput maxs 5,
     Cmd.bytesInt (gqa_factor : Int) 6,
     Cmd.bytesInt (N : Int) 7,
     Cmd.bytesUSize k_head_stride 8,
     Cmd.bytesUSize k_seq_stride 9,
     Cmd.bytesUSize v_head_stride 10,
     Cmd.bytesUSize v_seq_stride 11,
     Cmd.bytesF scale 12] ++
    (match mask with
     | some m =>
       [Cmd.setInput m 13,
        Cmd.bytesI32 (maskKvSeqStride m) 14,
        Cmd.bytesI32 (maskQSeqStride m) 15,
        Cmd.bytesI32 (maskHeadStride m) 16]
     | none => []) ++
    [Cmd.dispatchTG grid_dims group_dims,
     Cmd.setPipelineExact kname2,
     Cmd.setInput intermediate 0,
     Cmd.setInput sums 1,
     Cmd.setInput maxs 2,
     Cmd.setOutput out 3,
     Cmd.dispatchTG (B, q.shapeAt 2, 1) (1024, 1, 1)]
  (cmds, [intermediate, sums, maxs])

/-- The AttnParams block built by sdpa_full_self_attention_metal. -/
def fullAttnParams {F : Type} (q k v o : MArray) (scale : F) : AttnParams F :=
  let bd := q.shapeAt (-1)
  let bq : Nat := 32
  let bk : Nat := if bd < 128 then 32 else 16
  let qL := q.shapeAt 2
  let kL := k.shapeAt 2
  let NQ := (qL + bq - 1) / bq
  let NK := (kL + bk - 1) / bk
  let NQ_aligned := qL / bq
  let NK_aligned := kL / bk
  { B := (q.shapeAt 0 : Int)
    H := (q.shapeAt 1 : Int)
    D := (q.shapeAt 3 : Int)
    qL := (qL : Int)
    kL := (kL : Int)
    gqa_factor := ((q.shapeAt 1 / k.shapeAt 1 : Nat) : Int)
    scale := scale
    NQ := (NQ : Int)
    NK := (NK : Int)
    NQ_aligned := (NQ_aligned : Int)
    NK_aligned := (NK_aligned : Int)
    qL_rem := (qL : Int) - (NQ_aligned : Int) * (bq : Int)
    kL_rem := (kL : Int) - (NK_aligned : Int) * (bk : Int)
    qL_off := (kL : Int) - (qL : Int)
    Q_strides := (q.strides.getD 0 0, q.strides.getD 1 0, q.strides.getD 2 0)
    K_strides := (k.strides.getD 0 0, k.strides.getD 1 0, k.strides.getD 2 0)
    V_strides := (v.strides.getD 0 0, v.strides.getD 1 0, v.strides.getD 2 0)
    O_strides := (o.strides.getD 0 0, o.strides.getD 1 0, o.strides.getD 2 0) }

/-- Trace of sdpa_full_self_attention_metal: the tiled attention dispatch. -/
def sdpa_full_self_attention_metal {F : Type} (q k v : MArray) (scale : F)
    (o : MArray) (do_causal : Bool) (mask : Option MArray) : List (Cmd F) :=
  let wm : Nat := 4
  let wn : Nat := 1
  let bd := q.shapeAt (-1)
  let bq : Nat := 32
  let bk : Nat := if bd < 128 then 32 else 16
  let B := q.shapeAt 0
  let H := q.shapeAt 1
  let qL := q.shapeAt 2
  let kL := k.shapeAt 2
  let align_Q := qL % bq == 0
  let align_K := kL % bk == 0
  let has_mask := mask.isSome
  let func_consts : List (Bool × Nat) :=
    [(align_Q, 200), (align_K, 201), (has_mask, 300), (do_causal, 301)]
  let base_name := "steel_attention_" ++ q.dtypeName
      ++ "_bq" ++ toString bq ++ "_bk" ++ toString bk ++ "_bd" ++ toString bd
      ++ "_wm" ++ toString wm ++ "_wn" ++ toString wn
      ++ "_mask" ++ (match mask with | some m => m.dtypeName | none => q.dtypeName)
  let hash_name := base_name
      ++ "_align_Q_" ++ (if align_Q then "t" else "n")
      ++ "_align_K_" ++ (if align_K then "t" else "n")
      ++ "_has_mask_" ++ (if has_mask then "t" else "n")
      ++ "_do_causal_" ++ (if do_causal then "t" else "n")
  let NQ := (qL + bq - 1) / bq
  let params := fullAttnParams q k v o scale
  [Cmd.setPipeline base_name "mlx" hash_name func_consts,
   Cmd.setInput q 0, Cmd.setInput k 1, Cmd.setInput v 2,
   Cmd.setOutput o 3,
   Cmd.bytesParams params 4] ++
  (match mask with
   | some m =>
     [Cmd.bytesMaskParams (m.strides.getD 0 0) (m.strides.getD 1 0)
        (m.strides.getD 2 0) 5,
      Cmd.setInput m 6]
   | none => []) ++
  [Cmd.dispatchTG (NQ, H, B) (32, wm, wn)]

/-- Which top-level branch of eval_gpu ran. -/
inductive Mode where
  | vector
  | full
deriving DecidableEq, Repr

/-- Which dispatch function eval_gpu called. -/
inductive Path where
  | vectorSingle
  | vectorTwoPass
  | fullAttention
deriving DecidableEq, Repr

/-- Result of one eval_gpu call: which branch ran, the (possibly copied)
operands actually dispatched, the planned output array, whether the query
storage was donated, the layout copies, the two-pass temporaries, and the
full encoder trace. -/
structure EvalOut (F : Type) where
  mode : Mode
  path : Path
  q : MArray
  k : MArray
  v : MArray
  mask : Option MArray
  out : MArray
  donated : Bool
  copies : List MArray
  temps : List MArray
  cmds : List (Cmd F)
deriving DecidableEq, Repr

/-- Donation condition of the vector branch of eval_gpu:
q.is_donatable() and (q.shape(2) == 1 or not row contiguous) and
q.size() == o.size(). -/
def vectorDonate (q o : MArray) : Bool :=
  q.donatable && (q.shapeAt 2 == 1 || !q.flags.row_contiguous) && (q.size == o.size)

/-- Output layout planned by the vector branch of eval_gpu: donate the
query storage when vectorDonate holds (copy_shared_buffer takes the query
strides and flags), otherwise allocate; plain contiguous when o.shape(2)
is 1, else custom strides interleaving head and sequence with the
row-contiguous flag set exactly for a single head. The plain-contiguous
flags of set_data(buffer) are modelled from the spec (array::set_data is
external to this file). -/
def vectorPlanOut (q o : MArray) : MArray :=
  if vectorDonate q o then
    { o with strides := q.strides, flags := q.flags }
  else if o.shapeAt 2 == 1 then
    { o with strides := rowMajorStrides o.shape,
             flags :=
               { contiguous := true
                 row_contiguous := true
                 col_contiguous := decide (o.shape.prod ≤ 1) } }
  else
    { o with
        strides := (o.strides.set 2 ((o.shapeAt 1 : Int) * (o.shapeAt 3 : Int))).set 1
            (o.shapeAt 3 : Int)
        flags := { q.flags with row_contiguous := q.shapeAt 1 == 1 } }

/-- Vector-mode branch of ScaledDotProductAttention::eval_gpu
(q_pre.shape(2) <= 8). -/
def vectorBranch {F : Type} (devArch : String) (scale : F)
    (inputs : List MArray) (o : MArray) : EvalOut F :=
  let q_pre := inputs.getD 0 dummyArray
  let k_pre := inputs.getD 1 dummyArray
  let v_pre := inputs.getD 2 dummyArray
  let qc := copy_unless is_contiguous_or_head_seq_transposed q_pre
  let kc := copy_unless is_matrix_contiguous k_pre
  let vc := copy_unless is_matrix_contiguous v_pre
  let q := qc.1
  let k := kc.1
  let v := vc.1
  let donated := vectorDonate q o
  let oPlanned := vectorPlanOut q o
  let mask := if 3 < inputs.length then some (inputs.getD 3 dummyArray) else none
  let devc := devArch.back
  let twoPass := twoPassSelect devc (q.shapeAt 1) (k.shapeAt 1) (k.shapeAt 2)
  let dispatched :=
    if twoPass then sdpa_vector_2pass q k v oPlanned scale mask
    else (sdpa_vector q k v oPlanned scale mask, [])
  { mode := Mode.vector
    path := if twoPass then Path.vectorTwoPass else Path.vectorSingle
    q := q, k := k, v := v
    mask := mask
    out := oPlanned
    donated := donated
    copies := qc.2 ++ kc.2 ++ vc.2
    temps := dispatched.2
    cmds := dispatched.1 }

/-- Full-attention branch of ScaledDotProductAttention::eval_gpu
(q_pre.shape(2) > 8). -/
def fullBranch {F : Type} (scale : F) (do_causal : Bool)
    (inputs : List MArray) (o : MArray) : EvalOut F :=
  let q_pre := inputs.getD 0 dummyArray
  let k_pre := inputs.getD 1 dummyArray
  let v_pre := inputs.getD 2 dummyArray
  let qc := copy_unless is_matrix_contiguous q_pre
  let kc := copy_unless is_matrix_contiguous k_pre
  let vc := copy_unless is_matrix_contiguous v_pre
  let str_oD : Int := 1
  let str_oH : Int := (o.shapeAt 3 : Int)
  let str_oL : Int := (o.shapeAt 1 : Int) * str_oH
  let str_oB : Int := (o.shapeAt 2 : Int) * str_oL
  let oPlanned :=
    { o with strides := [str_oB, str_oH, str_oL, str_oD],
             flags :=
               { contiguous := true
                 row_contiguous := false
                 col_contiguous := false } }
  let maskc :=
    if 3 < inputs.length then
      let mc := copy_unless is_matrix_contiguous (inputs.getD 3 dummyArray)
      (some mc.1, mc.2)
    else (none, [])
  { mode := Mode.full
    path := Path.fullAttention
    q := qc.1, k := kc.1, v := vc.1
    mask := maskc.1
    out := oPlanned
    donated := false
    copies := qc.2 ++ kc.2 ++ vc.2 ++ maskc.2
    temps := []
    cmds := sdpa_full_self_attention_metal qc.1 kc.1 vc.1 scale oPlanned
        do_causal maskc.1 }

/-- ScaledDotProductAttention::eval_gpu: route to the vector branch when
the query sequence length (third dimension of inputs[0]) is at most 8,
otherwise to the full-attention branch. -/
def eval_gpu {F : Type} (devArch : String) (scale : F) (do_causal : Bool)
    (inputs : List MArray) (o : MArray) : EvalOut F :=
  if (inputs.getD 0 dummyArray).shapeAt 2 ≤ 8 then
    vectorBranch devArch scale inputs o
  else
    fullBranch scale do_causal inputs o

/-- The stride the spec claims is bound for the mask axis that is i
positions from the end (1 = key axis, 2 = query axis, 3 = head axis):
the actual stride when that axis has extent above 1, else 0. -/
def condStride (m : MArray) (i : Nat) : Int :=
  if 1 < m.shapeAt (-(i : Int)) then m.strideAt (-(i : Int)) else 0

/-! Concrete arrays used to exercise the dispatcher on explicit inputs. -/

/-- Query [1,1,1,64], row-major, row contiguous, not donatable. -/
def qVec1 : MArray :=
  { shape := [1, 1, 1, 64], strides := [64, 64, 64, 1], dtypeName := "float16",
    flags := ⟨true, true, false⟩, donatable := false }

/-- Key/value [1,1,2048,64], row-major. -/
def kVec2048 : MArray :=
  { shape := [1, 1, 2048, 64], strides := [131072, 131072, 64, 1],
    dtypeName := "float16", flags := ⟨true, true, false⟩, donatable := false }

/-- Output [1,1,1,64], row-major. -/
def oVec1 : MArray :=
  { shape := [1, 1, 1, 64], strides := [64, 64, 64, 1], dtypeName := "float16",
    flags := ⟨true, true, false⟩, donatable := false }

/-- Query [2,8,50,128], row-major (full mode, D = 128). -/
def qFull50 : MArray :=
  { shape := [2, 8, 50, 128], strides := [51200, 6400, 128, 1],
    dtypeName := "float16", flags := ⟨true, true, false⟩, donatable := false }

/-- Key/value [2,2,50,128], row-major. -/
def kFull50 : MArray :=
  { shape := [2, 2, 50, 128], strides := [12800, 6400, 128, 1],
    dtypeName := "float16", flags := ⟨true, true, false⟩, donatable := false }

/-- Output [2,8,50,128], row-major. -/
def oFull50 : MArray :=
  { shape := [2, 8, 50, 128], strides := [51200, 6400, 128, 1],
    dtypeName := "float16", flags := ⟨true, true, false⟩, donatable := false }

/-- Query [1,1,1,4], row-major. -/
def qVec4 : MArray :=
  { shape := [1, 1, 1, 4], strides := [4, 4, 4, 1], dtypeName := "float16",
    flags := ⟨true, true, false⟩, donatable := false }

/-- Key/value [1,1,4,4], row-major. -/
def kVec4 : MArray :=
  { shape := [1, 1, 4, 4], strides := [16, 16, 4, 1], dtypeName := "float16",
    flags := ⟨true, true, false⟩, donatable := false }

/-- Mask [1,1,1,4] whose innermost (head-dim/key) stride is 2, not 1:
it fails is_matrix_contiguous. -/
def maskStride2 : MArray :=
  { shape := [1, 1, 1, 4], strides := [8, 8, 8, 2], dtypeName := "bool_",
    flags := ⟨false, false, false⟩, donatable := false }

/-- Output [1,1,1,4], row-major. -/
def oVec4 : MArray :=
  { shape := [1, 1, 1, 4], strides := [4, 4, 4, 1], dtypeName := "float16",
    flags := ⟨true, true, false⟩, donatable := false }

/-- Query [1,1,9,16], row-major (full mode). -/
def qFull9 : MArray :=
  { shape := [1, 1, 9, 16], strides := [144, 144, 16, 1], dtypeName := "float16",
    flags := ⟨true, true, false⟩, donatable := false }

/-- Mask [1,1,9,16], row-major: its head axis (extent 1) has stride 144,
its query axis stride 16, its key axis stride 1. -/
def maskFull9 : MArray :=
  { shape := [1, 1, 9, 16], strides := [144, 144, 16, 1], dtypeName := "bool_",
    flags := ⟨true, true, false⟩, donatable := false }

/-- Mask [1,1,2,4], row-major (broadcast head axis of extent 1). -/
def maskBcast : MArray :=
  { shape := [1, 1, 2, 4], strides := [8, 8, 4, 1], dtypeName := "bool_",
    flags := ⟨true, true, false⟩, donatable := false }

/-- Donatable query [1,2,1,4], row-major, sequence length 1. -/
def qDon : MArray :=
  { shape := [1, 2, 1, 4], strides := [8, 4, 4, 1], dtypeName := "float16",
    flags := ⟨true, true, false⟩, donatable := true }

/-- Key/value [1,1,8,4], row-major. -/
def kVec8 : MArray :=
  { shape := [1, 1, 8, 4], strides := [32, 32, 4, 1], dtypeName := "float16",
    flags := ⟨true, true, false⟩, donatable := false }

/-- Output [1,2,1,4], row-major. -/
def oDon : MArray :=
  { shape := [1, 2, 1, 4], strides := [8, 4, 4, 1], dtypeName := "float16",
    flags := ⟨true, true, false⟩, donatable := false }

/-- Non-donatable query [1,2,4,8], row-major, sequence length 4. -/
def qSeq4 : MArray :=
  { shape := [1, 2, 4, 8], strides := [64, 32, 8, 1], dtypeName := "float16",
    flags := ⟨true, true, false⟩, donatable := false }

/-- Key/value [1,1,8,8], row-major. -/
def kSeq8 : MArray :=
  { shape := [1, 1, 8, 8], strides := [64, 64, 8, 1], dtypeName := "float16",
    flags := ⟨true, true, false⟩, donatable := false }

/-- Output [1,2,4,8], row-major. -/
def oSeq4 : MArray :=
  { shape := [1, 2, 4, 8], strides := [64, 32, 8, 1], dtypeName := "float16",
    flags := ⟨true, true, false⟩, donatable := false }

/-- Recognizes a bytesMaskParams command (the full-mode mask stride
binding). -/
def isMaskParamsCmd {F : Type} : Cmd F → Bool
  | Cmd.bytesMaskParams _ _ _ _ => true
  | _ => false

/-- Recognizes a bytesI32 command (the vector-mode mask stride bindings). -/
def isI32Cmd {F : Type} : Cmd F → Bool
  | Cmd.bytesI32 _ _ => true
  | _ => false

section Helpers

variable {F : Type}

lemma copy_unless_fst (p : MArray → Bool) (a : MArray) :
    (copy_unless p a).1 = if p a then a else rowMajorCopy a := by
  unfold copy_unless
  split <;> simp_all

lemma copy_unless_shape (p : MArray → Bool) (a : MArray) :
    ((copy_unless p a).1).shape = a.shape := by
  rw [copy_unless_fst]
  split <;> rfl

lemma shapeAt_eq_of_shape_eq {a b : MArray} (hs : a.shape = b.shape) (i : Int) :
    a.shapeAt i = b.shapeAt i := by
  unfold MArray.shapeAt MArray.ndim
  rw [hs]

lemma copy_unless_shapeAt (p : MArray → Bool) (a : MArray) (i : Int) :
    ((copy_unless p a).1).shapeAt i = a.shapeAt i :=
  shapeAt_eq_of_shape_eq (copy_unless_shape p a) i

lemma vectorBranch_mode (devArch : String) (scale : F) (inputs : List MArray)
    (o : MArray) : (vectorBranch devArch scale inputs o).mode = Mode.vector := rfl

lemma fullBranch_mode (scale : F) (dc : Bool) (inputs : List MArray)
    (o : MArray) : (fullBranch scale dc inputs o).mode = Mode.full := rfl

lemma vectorBranch_q (devArch : String) (scale : F) (inputs : List MArray)
    (o : MArray) :
    (vectorBranch devArch scale inputs o).q =
      (copy_unless is_contiguous_or_head_seq_transposed (inputs.getD 0 dummyArray)).1 := rfl

lemma vectorBranch_k (devArch : String) (scale : F) (inputs : List MArray)
    (o : MArray) :
    (vectorBranch devArch scale inputs o).k =
      (copy_unless is_matrix_contiguous (inputs.getD 1 dummyArray)).1 := rfl

lemma vectorBranch_v (devArch : String) (scale : F) (inputs : List MArray)
    (o : MArray) :
    (vectorBranch devArch scale inputs o).v =
      (copy_unless is_matrix_contiguous (inputs.getD 2 dummyArray)).1 := rfl

lemma vectorBranch_mask (devArch : String) (scale : F) (inputs : List MArray)
    (o : MArray) :
    (vectorBranch devArch scale inputs o).mask =
      (if 3 < inputs.length then some (inputs.getD 3 dummyArray) else none) := rfl

lemma vectorBranch_donated (devArch : String) (scale : F) (inputs : List MArray)
    (o : MArray) :
    (vectorBranch devArch scale inputs o).donated =
      vectorDonate (vectorBranch devArch scale inputs o).q o := rfl

lemma vectorBranch_out (devArch : String) (scale : F) (inputs : List MArray)
    (o : MArray) :
    (vectorBranch devArch scale inputs o).out =
      vectorPlanOut (vectorBranch devArch scale inputs o).q o := rfl

lemma vectorBranch_path (devArch : String) (scale : F) (inputs : List MArray)
    (o : MArray) :
    (vectorBranch devArch scale inputs o).path =
      (if twoPassSelect devArch.back
          ((vectorBranch devArch scale inputs o).q.shapeAt 1)
          ((vectorBranch devArch scale inputs o).k.shapeAt 1)
          ((vectorBranch devArch scale inputs o).k.shapeAt 2)
        then Path.vectorTwoPass else Path.vectorSingle) := rfl

lemma vectorBranch_cmds (devArch : String) (scale : F) (inputs : List MArray)
    (o : MArray) :
    (vectorBranch devArch scale inputs o).cmds =
      (if twoPassSelect devArch.back
          ((vectorBranch devArch scale inputs o).q.shapeAt 1)
          ((vectorBranch devArch scale inputs o).k.shapeAt 1)
          ((vectorBranch devArch scale inputs o).k.shapeAt 2)
        then (sdpa_vector_2pass (vectorBranch devArch scale inputs o).q
            (vectorBranch devArch scale inputs o).k
            (vectorBranch devArch scale inputs o).v
            (vectorBranch devArch scale inputs o).out scale
            (vectorBranch devArch scale inputs o).mask)
        else (sdpa_vector (vectorBranch devArch scale inputs o).q
            (vectorBranch devArch scale inputs o).k
            (vectorBranch devArch scale inputs o).v
            (vectorBranch devArch scale inputs o).out scale
            (vectorBranch devArch scale inputs o).mask, [])).1 := rfl

lemma fullBranch_q (scale : F) (dc : Bool) (inputs : List MArray) (o : MArray) :
    (fullBranch scale dc inputs o).q =
      (copy_unless is_matrix_contiguous (inputs.getD 0 dummyArray)).1 := rfl

lemma fullBranch_k (scale : F) (dc : Bool) (inputs : List MArray) (o : MArray) :
    (fullBranch scale dc inputs o).k =
      (copy_unless is_matrix_contiguous (inputs.getD 1 dummyArray)).1 := rfl

lemma fullBranch_v (scale : F) (dc : Bool) (inputs : List MArray) (o : MArray) :
    (fullBranch scale dc inputs o).v =
      (copy_unless is_matrix_contiguous (inputs.getD 2 dummyArray)).1 := rfl

lemma fullBranch_mask (scale : F) (dc : Bool) (inputs : List MArray) (o : MArray) :
    (fullBranch scale dc inputs o).mask =
      (if 3 < inputs.length then
        some (copy_unless is_matrix_contiguous (inputs.getD 3 dummyArray)).1
      else none) := by
  unfold fullBranch
  split <;> rfl

lemma fullBranch_cmds (scale : F) (dc : Bool) (inputs : List MArray) (o : MArray) :
    (fullBranch scale dc inputs o).cmds =
      sdpa_full_self_attention_metal (fullBranch scale dc inputs o).q
        (fullBranch scale dc inputs o).k (fullBranch scale dc inputs o).v scale
        (fullBranch scale dc inputs o).out dc (fullBranch scale dc inputs o).mask := rfl

lemma eval_gpu_vector (devArch : String) (scale : F) (dc : Bool)
    (inputs : List MArray) (o : MArray)
    (h : (inputs.getD 0 dummyArray).shapeAt 2 ≤ 8) :
    eval_gpu devArch scale dc inputs o = vectorBranch devArch scale inputs o := by
  unfold eval_gpu
  exact if_pos h

lemma eval_gpu_full (devArch : String) (scale : F) (dc : Bool)
    (inputs : List MArray) (o : MArray)
    (h : ¬ (inputs.getD 0 dummyArray).shapeAt 2 ≤ 8) :
    eval_gpu devArch scale dc inputs o = fullBranch scale dc inputs o := by
  unfold eval_gpu
  exact if_neg h

lemma twoPassSelect_iff (devc : Char) (qH kH kL : Nat) :
    twoPassSelect devc qH kH kL = true ↔
      ((devc = 'd' ∧ 1024 ≤ kL) ∨ (kH < qH ∧ 4096 ≤ kL)) := by
  simp [twoPassSelect]

lemma setInput_k_mem_sdpa_vector (q k v out : MArray) (scale : F)
    (mask : Option MArray) :
    Cmd.setInput k 1 ∈ sdpa_vector q k v out scale mask := by
  cases mask <;> simp [sdpa_vector]

lemma setInput_v_mem_sdpa_vector (q k v out : MArray) (scale : F)
    (mask : Option MArray) :
    Cmd.setInput v 2 ∈ sdpa_vector q k v out scale mask := by
  cases mask <;> simp [sdpa_vector]

lemma setInput_k_mem_sdpa_vector_2pass (q k v out : MArray) (scale : F)
    (mask : Option MArray) :
    Cmd.setInput k 1 ∈ (sdpa_vector_2pass q k v out scale mask).1 := by
  cases mask <;> simp [sdpa_vector_2pass]

lemma setInput_v_mem_sdpa_vector_2pass (q k v out : MArray) (scale : F)
    (mask : Option MArray) :
    Cmd.setInput v 2 ∈ (sdpa_vector_2pass q k v out scale mask).1 := by
  cases mask <;> simp [sdpa_vector_2pass]

lemma setInput_k_mem_sdpa_full (q k v o : MArray) (scale : F) (dc : Bool)
    (mask : Option MArray) :
    Cmd.setInput k 1 ∈ sdpa_full_self_attention_metal q k v scale o dc mask := by
  cases mask <;> simp [sdpa_full_self_attention_metal]

lemma setInput_v_mem_sdpa_full (q k v o : MArray) (scale : F) (dc : Bool)
    (mask : Option MArray) :
    Cmd.setInput v 2 ∈ sdpa_full_self_attention_metal q k v scale o dc mask := by
  cases mask <;> simp [sdpa_full_self_attention_metal]

lemma wrap32_eq_self (x : Int) (hl : -(2 ^ 31) ≤ x) (hr : x < 2 ^ 31) :
    wrap32 x = x := by
  have h31 : (2 : Int) ^ 31 = 2147483648 := by norm_num
  have h32 : (2 : Int) ^ 32 = 4294967296 := by norm_num
  unfold wrap32
  rw [h31, h32]
  rw [h31] at hl hr
  omega

lemma strideAt_neg (m : MArray) (i : Nat) (h0 : 1 ≤ i) (h : i ≤ m.ndim) :
    m.strideAt (-(i : Int)) = m.strides.getD (m.ndim - i) 0 := by
  simp only [MArray.strideAt]
  rw [if_pos (show (-(i : Int)) < 0 by omega)]
  congr 1
  omega

lemma condStride_eq (m : MArray) (i : Nat) (h0 : 1 ≤ i) (h : i ≤ m.ndim) :
    condStride m i =
      (if 1 < m.shapeAt (-(i : Int)) then m.strides.getD (m.ndim - i) 0 else 0) := by
  unfold condStride
  rw [strideAt_neg m i h0 h]

lemma maskKvSeqStride_eq (m : MArray) (h : 1 ≤ m.ndim) :
    maskKvSeqStride m = wrap32 (condStride m 1) := by
  unfold maskKvSeqStride
  rw [condStride_eq m 1 (le_refl 1) h]
  simp only [Nat.cast_one]
  congr 1
  simp only [h, true_and]

lemma maskQSeqStride_eq (m : MArray) (h : 2 ≤ m.ndim) :
    maskQSeqStride m = wrap32 (condStride m 2) := by
  unfold maskQSeqStride
  rw [condStride_eq m 2 (by omega) h]
  simp only [Nat.cast_ofNat]
  congr 1
  simp only [h, true_and]

lemma maskHeadStride_eq (m : MArray) (h : 3 ≤ m.ndim) :
    maskHeadStride m = wrap32 (condStride m 3) := by
  unfold maskHeadStride
  rw [condStride_eq m 3 (by omega) h]
  simp only [Nat.cast_ofNat]
  congr 1
  simp only [h, true_and]

end Helpers

/-- C1. For every call, the dispatcher selects vector mode exactly when
the query sequence length Lq (the query tensor's third dimension) is at
most 8, and full (tiled) mode exactly when Lq is greater than 8; at the
boundary, Lq = 8 selects vector mode and Lq = 9 selects full mode. -/
theorem C1_mode_selection (devArch : String) (scale : Int) (dc : Bool)
    (inputs : List MArray) (o : MArray) :
    ((eval_gpu devArch scale dc inputs o).mode = Mode.vector ↔
      (inputs.getD 0 dummyArray).shapeAt 2 ≤ 8) ∧
    ((eval_gpu devArch scale dc inputs o).mode = Mode.full ↔
      8 < (inputs.getD 0 dummyArray).shapeAt 2) := by
  by_cases h : (inputs.getD 0 dummyArray).shapeAt 2 ≤ 8
  · rw [eval_gpu_vector devArch scale dc inputs o h]
    refine ⟨⟨fun _ => h, fun _ => vectorBranch_mode devArch scale inputs o⟩,
      ⟨fun hc => ?_, fun hgt => absurd h (by omega)⟩⟩
    rw [vectorBranch_mode] at hc
    exact Mode.noConfusion hc
  · rw [eval_gpu_full devArch scale dc inputs o h]
    refine ⟨⟨fun hc => ?_, fun hle => absurd hle h⟩,
      ⟨fun _ => by omega, fun _ => fullBranch_mode scale dc inputs o⟩⟩
    rw [fullBranch_mode] at hc
    exact Mode.noConfusion hc

/-- C2. For every vector-mode call (Lq at most 8), the two-pass path is
selected iff (the architecture string ends in the high-capacity marker
character d and the key length is at least 1024) or (the key/value head
count is strictly below the query head count and the key length is at
least 4096); otherwise the single-pass vector path is selected. -/
theorem C2_two_pass_selection (devArch : String) (scale : Int) (dc : Bool)
    (inputs : List MArray) (o : MArray)
    (h : (inputs.getD 0 dummyArray).shapeAt 2 ≤ 8) :
    ((eval_gpu devArch scale dc inputs o).path = Path.vectorTwoPass ↔
      ((devArch.back = 'd' ∧ 1024 ≤ (inputs.getD 1 dummyArray).shapeAt 2) ∨
       ((inputs.getD 1 dummyArray).shapeAt 1 < (inputs.getD 0 dummyArray).shapeAt 1 ∧
         4096 ≤ (inputs.getD 1 dummyArray).shapeAt 2))) ∧
    ((eval_gpu devArch scale dc inputs o).path = Path.vectorSingle ↔
      ¬ ((devArch.back = 'd' ∧ 1024 ≤ (inputs.getD 1 dummyArray).shapeAt 2) ∨
        ((inputs.getD 1 dummyArray).shapeAt 1 < (inputs.getD 0 dummyArray).shapeAt 1 ∧
          4096 ≤ (inputs.getD 1 dummyArray).shapeAt 2))) := by
  rw [eval_gpu_vector devArch scale dc inputs o h]
  simp only [vectorBranch_path, vectorBranch_q, vectorBranch_k, copy_unless_shapeAt]
  rw [← twoPassSelect_iff devArch.back]
  by_cases hc : twoPassSelect devArch.back ((inputs.getD 0 dummyArray).shapeAt 1)
      ((inputs.getD 1 dummyArray).shapeAt 1) ((inputs.getD 1 dummyArray).shapeAt 2) <;>
    simp [hc]

/-- Witness for C2: the concrete scenario B=1, H=1, Hk=1, Lq=1, Lk=2048
selects the two-pass path on an architecture ending in d and the
single-pass path on one that does not. -/
theorem C2_two_pass_selection_witness :
    (eval_gpu "applegpu_g14d" (0 : Int) false [qVec1, kVec2048, kVec2048] oVec1).path =
      Path.vectorTwoPass ∧
    (eval_gpu "applegpu_g14s" (0 : Int) false [qVec1, kVec2048, kVec2048] oVec1).path =
      Path.vectorSingle := by
  constructor
  · exact (C2_two_pass_selection "applegpu_g14d" 0 false [qVec1, kVec2048, kVec2048]
      oVec1 (by decide)).1.mpr (Or.inl (by constructor <;> decide))
  · exact (C2_two_pass_selection "applegpu_g14s" 0 false [qVec1, kVec2048, kVec2048]
      oVec1 (by decide)).2.mpr (by decide)

/-- C8. For every fixed device class and fixed query/key head counts, the
two-pass selection predicate is monotone in key length. -/
theorem C8_two_pass_monotone (devc : Char) (qH kH n m : Nat) (hnm : n ≤ m)
    (hn : twoPassSelect devc qH kH n = true) :
    twoPassSelect devc qH kH m = true := by
  rw [twoPassSelect_iff] at hn ⊢
  rcases hn with ⟨h1, h2⟩ | ⟨h1, h2⟩
  · exact Or.inl ⟨h1, h2.trans hnm⟩
  · exact Or.inr ⟨h1, h2.trans hnm⟩

/-- Witness for C8: two-pass selected at key length 1024 stays selected
at key length 4096 on the high-capacity device class. -/
theorem C8_two_pass_monotone_witness : twoPassSelect 'd' 1 1 4096 = true :=
  C8_two_pass_monotone 'd' 1 1 1024 4096 (by decide) (by decide)

/-- C9. For every full-mode call with Lq and Lk at least 1, the computed
tile counts cover the sequence lengths: NQ times bq is at least Lq and NK
times bk is at least Lk. -/
theorem C9_tile_cover (q k v o : MArray) (scale : Int)
    (h1 : 1 ≤ q.shapeAt 2) (h2 : 1 ≤ k.shapeAt 2) :
    (q.shapeAt 2 : Int) ≤ (fullAttnParams q k v o scale).NQ * 32 ∧
    (k.shapeAt 2 : Int) ≤ (fullAttnParams q k v o scale).NK *
      (if q.shapeAt (-1) < 128 then 32 else 16) := by
  simp only [fullAttnParams]
  constructor
  · omega
  · by_cases hbd : q.shapeAt (-1) < 128 <;> simp only [hbd, if_true, if_false] <;> omega

/-- Witness for C9: tile coverage at the concrete full-mode shape
Lq = Lk = 50, D = 128. -/
theorem C9_tile_cover_witness :
    (50 : Int) ≤ (fullAttnParams qFull50 kFull50 kFull50 oFull50 (0 : Int)).NQ * 32 ∧
    (50 : Int) ≤ (fullAttnParams qFull50 kFull50 kFull50 oFull50 (0 : Int)).NK * 16 := by
  have h := C9_tile_cover qFull50 kFull50 kFull50 oFull50 0 (by decide) (by decide)
  simpa using h

/-- C3. For every full-mode call the kernel parameter block satisfies
bq = 32, bk = 32 when the head dim is below 128 and 16 otherwise,
NQ = ceil(Lq/bq), NK = ceil(Lk/bk), NQ_aligned = floor(Lq/bq),
NK_aligned = floor(Lk/bk), qL_rem = Lq - NQ_aligned*bq,
kL_rem = Lk - NK_aligned*bk, qL_off = Lk - Lq; in particular for
Lq = Lk = 50 and D = 128 it has NQ = 2, NK = 4, qL_rem = 18, kL_rem = 2,
qL_off = 0. -/
theorem C3_full_param_block (q k v o : MArray) (scale : Int) (dc : Bool)
    (mask : Option MArray) :
    Cmd.bytesParams (fullAttnParams q k v o scale) 4 ∈
      sdpa_full_self_attention_metal q k v scale o dc mask ∧
    (fullAttnParams q k v o scale).NQ = ((q.shapeAt 2 ⌈/⌉ 32 : Nat) : Int) ∧
    (fullAttnParams q k v o scale).NK =
      ((k.shapeAt 2 ⌈/⌉ (if q.shapeAt (-1) < 128 then 32 else 16) : Nat) : Int) ∧
    (fullAttnParams q k v o scale).NQ_aligned = ((q.shapeAt 2 / 32 : Nat) : Int) ∧
    (fullAttnParams q k v o scale).NK_aligned =
      ((k.shapeAt 2 / (if q.shapeAt (-1) < 128 then 32 else 16) : Nat) : Int) ∧
    (fullAttnParams q k v o scale).qL_rem =
      (q.shapeAt 2 : Int) - ((q.shapeAt 2 / 32 : Nat) : Int) * 32 ∧
    (fullAttnParams q k v o scale).kL_rem =
      (k.shapeAt 2 : Int) -
        ((k.shapeAt 2 / (if q.shapeAt (-1) < 128 then 32 else 16) : Nat) : Int) *
        ((if q.shapeAt (-1) < 128 then 32 else 16 : Nat) : Int) ∧
    (fullAttnParams q k v o scale).qL_off =
      (k.shapeAt 2 : Int) - (q.shapeAt 2 : Int) ∧
    (fullAttnParams qFull50 kFull50 kFull50 oFull50 scale).NQ = 2 ∧
    (fullAttnParams qFull50 kFull50 kFull50 oFull50 scale).NK = 4 ∧
    (fullAttnParams qFull50 kFull50 kFull50 oFull50 scale).qL_rem = 18 ∧
    (fullAttnParams qFull50 kFull50 kFull50 oFull50 scale).kL_rem = 2 ∧
    (fullAttnParams qFull50 kFull50 kFull50 oFull50 scale).qL_off = 0 := by
  refine ⟨?_, rfl, rfl, rfl, rfl, rfl, rfl, rfl, rfl, rfl, rfl, rfl, rfl⟩
  cases mask <;> simp [sdpa_full_self_attention_metal]

/-- C6. In vector mode, the query storage is donated to the output iff
the query is donatable, its element count equals the output element
count, and the query sequence length is 1 or the query is not row
contiguous; on donation the output takes the query strides and flags. -/
theorem C6_donation (devArch : String) (scale : Int) (dc : Bool)
    (inputs : List MArray) (o : MArray)
    (h : (inputs.getD 0 dummyArray).shapeAt 2 ≤ 8) :
    ((eval_gpu devArch scale dc inputs o).donated = true ↔
      ((eval_gpu devArch scale dc inputs o).q.donatable = true ∧
       (eval_gpu devArch scale dc inputs o).q.size = o.size ∧
       ((eval_gpu devArch scale dc inputs o).q.shapeAt 2 = 1 ∨
        (eval_gpu devArch scale dc inputs o).q.flags.row_contiguous = false))) ∧
    ((eval_gpu devArch scale dc inputs o).donated = true →
      (eval_gpu devArch scale dc inputs o).out.strides =
        (eval_gpu devArch scale dc inputs o).q.strides ∧
      (eval_gpu devArch scale dc inputs o).out.flags =
        (eval_gpu devArch scale dc inputs o).q.flags) := by
  rw [eval_gpu_vector devArch scale dc inputs o h]
  constructor
  · rw [vectorBranch_donated]
    unfold vectorDonate
    simp only [Bool.and_eq_true, Bool.or_eq_true, beq_iff_eq, Bool.not_eq_true']
    tauto
  · intro hd
    rw [vectorBranch_out]
    rw [vectorBranch_donated] at hd
    unfold vectorPlanOut
    rw [if_pos hd]
    exact ⟨rfl, rfl⟩

/-- Witness for C6: a donatable query with sequence length 1 whose
element count matches the output is donated. -/
theorem C6_donation_witness :
    (eval_gpu "applegpu_g14s" (0 : Int) false [qDon, kVec8, kVec8] oDon).donated =
      true :=
  (C6_donation "applegpu_g14s" 0 false [qDon, kVec8, kVec8] oDon (by decide)).1.mpr
    (by decide)

/-- C7. In vector mode without donation: output extent 1 along axis 2
gives plain contiguous storage; otherwise the strides interleave head and
sequence (sequence stride H*Dv at index 2, head stride Dv at index 1) and
the row-contiguous flag is set exactly when the query has a single head. -/
theorem C7_output_layout (devArch : String) (scale : Int) (dc : Bool)
    (inputs : List MArray) (o : MArray)
    (hv : (inputs.getD 0 dummyArray).shapeAt 2 ≤ 8)
    (hnd : (eval_gpu devArch scale dc inputs o).donated = false) :
    (o.shapeAt 2 = 1 →
      (eval_gpu devArch scale dc inputs o).out.strides = rowMajorStrides o.shape ∧
      (eval_gpu devArch scale dc inputs o).out.flags.contiguous = true ∧
      (eval_gpu devArch scale dc inputs o).out.flags.row_contiguous = true) ∧
    (¬ o.shapeAt 2 = 1 →
      (eval_gpu devArch scale dc inputs o).out.strides =
        (o.strides.set 2 ((o.shapeAt 1 : Int) * (o.shapeAt 3 : Int))).set 1
          (o.shapeAt 3 : Int) ∧
      ((eval_gpu devArch scale dc inputs o).out.flags.row_contiguous = true ↔
        (eval_gpu devArch scale dc inputs o).q.shapeAt 1 = 1)) := by
  rw [eval_gpu_vector devArch scale dc inputs o hv] at hnd ⊢
  rw [vectorBranch_out]
  rw [vectorBranch_donated] at hnd
  unfold vectorPlanOut
  rw [if_neg (by simp [hnd])]
  constructor
  · intro h1
    rw [if_pos (by simp [h1])]
    exact ⟨rfl, rfl, rfl⟩
  · intro h1
    rw [if_neg (by simp [h1])]
    refine ⟨rfl, ?_⟩
    simp

/-- Witness for C7: non-donated vector-mode output with sequence length 4
gets the interleaved strides (sequence stride H*Dv = 16, head stride
Dv = 8). -/
theorem C7_output_layout_witness :
    (eval_gpu "applegpu_g14s" (0 : Int) false [qSeq4, kSeq8, kSeq8] oSeq4).out.strides =
      [64, 8, 16, 1] := by
  have h := C7_output_layout "applegpu_g14s" 0 false [qSeq4, kSeq8, kSeq8] oSeq4
    (by decide) (by decide)
  rw [(h.2 (by decide)).1]
  decide

/-- C10. For every vector-mode call, the issued result (including the
whole kernel launch trace) is independent of the causal flag. -/
theorem C10_causal_flag_independence (devArch : String) (scale : Int)
    (inputs : List MArray) (o : MArray)
    (h : (inputs.getD 0 dummyArray).shapeAt 2 ≤ 8) :
    eval_gpu devArch scale true inputs o = eval_gpu devArch scale false inputs o := by
  rw [eval_gpu_vector devArch scale true inputs o h,
    eval_gpu_vector devArch scale false inputs o h]

/-- Witness for C10: causal-flag independence at a concrete vector-mode
call. -/
theorem C10_causal_flag_independence_witness :
    eval_gpu "applegpu_g14d" (0 : Int) true [qVec1, kVec2048, kVec2048] oVec1 =
      eval_gpu "applegpu_g14d" (0 : Int) false [qVec1, kVec2048, kVec2048] oVec1 :=
  C10_causal_flag_independence "applegpu_g14d" 0 [qVec1, kVec2048, kVec2048] oVec1
    (by decide)

/-- Counterexample for C4: in a vector-mode call with a mask whose
innermost stride is 2 (it fails is_matrix_contiguous), the dispatcher
binds the original mask unchanged instead of replacing it with a
row-major copy. -/
theorem C4_counterexample :
    is_matrix_contiguous maskStride2 = false ∧
    (eval_gpu "applegpu_g14s" (0 : Int) false [qVec4, kVec4, kVec4, maskStride2]
        oVec4).mask = some maskStride2 ∧
    Cmd.setInput maskStride2 11 ∈
      (eval_gpu "applegpu_g14s" (0 : Int) false [qVec4, kVec4, kVec4, maskStride2]
        oVec4).cmds ∧
    (eval_gpu "applegpu_g14s" (0 : Int) false [qVec4, kVec4, kVec4, maskStride2]
        oVec4).mask ≠ some (rowMajorCopy maskStride2) := by
  refine ⟨rfl, rfl, by decide, by decide⟩

/-- C4 amended. In both modes, K and V are replaced by a fresh row-major
copy exactly when they fail the innermost-stride-1 predicate and passed
through unchanged otherwise; the mask is so treated only in full mode,
while in vector mode it is always passed through unchanged. -/
theorem C4_amended_layout_normalization (devArch : String) (scale : Int)
    (dc : Bool) (inputs : List MArray) (o : MArray) :
    ((eval_gpu devArch scale dc inputs o).k =
      (if is_matrix_contiguous (inputs.getD 1 dummyArray) then inputs.getD 1 dummyArray
       else rowMajorCopy (inputs.getD 1 dummyArray))) ∧
    ((eval_gpu devArch scale dc inputs o).v =
      (if is_matrix_contiguous (inputs.getD 2 dummyArray) then inputs.getD 2 dummyArray
       else rowMajorCopy (inputs.getD 2 dummyArray))) ∧
    Cmd.setInput (eval_gpu devArch scale dc inputs o).k 1 ∈
      (eval_gpu devArch scale dc inputs o).cmds ∧
    Cmd.setInput (eval_gpu devArch scale dc inputs o).v 2 ∈
      (eval_gpu devArch scale dc inputs o).cmds ∧
    ((eval_gpu devArch scale dc inputs o).mode = Mode.full →
      (eval_gpu devArch scale dc inputs o).mask =
        (if 3 < inputs.length then
          some (if is_matrix_contiguous (inputs.getD 3 dummyArray) then
              inputs.getD 3 dummyArray
            else rowMajorCopy (inputs.getD 3 dummyArray))
        else none)) ∧
    ((eval_gpu devArch scale dc inputs o).mode = Mode.vector →
      (eval_gpu devArch scale dc inputs o).mask =
        (if 3 < inputs.length then some (inputs.getD 3 dummyArray) else none)) ∧
    (rowMajorCopy (inputs.getD 1 dummyArray)).strides =
      rowMajorStrides (inputs.getD 1 dummyArray).shape ∧
    (rowMajorCopy (inputs.getD 1 dummyArray)).flags.row_contiguous = true := by
  by_cases h : (inputs.getD 0 dummyArray).shapeAt 2 ≤ 8
  · rw [eval_gpu_vector devArch scale dc inputs o h]
    refine ⟨?_, ?_, ?_, ?_, ?_, fun _ => vectorBranch_mask devArch scale inputs o,
      rfl, rfl⟩
    · rw [vectorBranch_k, copy_unless_fst]
    · rw [vectorBranch_v, copy_unless_fst]
    · rw [vectorBranch_cmds]
      by_cases ht : twoPassSelect devArch.back
          ((vectorBranch devArch scale inputs o).q.shapeAt 1)
          ((vectorBranch devArch scale inputs o).k.shapeAt 1)
          ((vectorBranch devArch scale inputs o).k.shapeAt 2)
      · rw [if_pos ht]
        exact setInput_k_mem_sdpa_vector_2pass _ _ _ _ _ _
      · rw [if_neg ht]
        exact setInput_k_mem_sdpa_vector _ _ _ _ _ _
    · rw [vectorBranch_cmds]
      by_cases ht : twoPassSelect devArch.back
          ((vectorBranch devArch scale inputs o).q.shapeAt 1)
          ((vectorBranch devArch scale inputs o).k.shapeAt 1)
          ((vectorBranch devArch scale inputs o).k.shapeAt 2)
      · rw [if_pos ht]
        exact setInput_v_mem_sdpa_vector_2pass _ _ _ _ _ _
      · rw [if_neg ht]
        exact setInput_v_mem_sdpa_vector _ _ _ _ _ _
    · intro hc
      rw [vectorBranch_mode] at hc
      exact Mode.noConfusion hc
  · rw [eval_gpu_full devArch scale dc inputs o h]
    refine ⟨?_, ?_, ?_, ?_, fun _ => ?_, fun hc => ?_, rfl, rfl⟩
    · rw [fullBranch_k, copy_unless_fst]
    · rw [fullBranch_v, copy_unless_fst]
    · rw [fullBranch_cmds]
      exact setInput_k_mem_sdpa_full _ _ _ _ _ _ _
    · rw [fullBranch_cmds]
      exact setInput_v_mem_sdpa_full _ _ _ _ _ _ _
    · rw [fullBranch_mask]
      by_cases hl : 3 < inputs.length
      · rw [if_pos hl, if_pos hl, copy_unless_fst]
      · rw [if_neg hl, if_neg hl]
    · rw [fullBranch_mode] at hc
      exact Mode.noConfusion hc

/-- Witness for C4 amended: a full-mode call whose mask fails the
predicate dispatches a row-major copy of the mask. -/
theorem C4_amended_layout_normalization_witness :
    (eval_gpu "applegpu_g14s" (0 : Int) true [qFull50, kFull50, kFull50, maskStride2]
        oFull50).mask = some (rowMajorCopy maskStride2) := by
  have h := C4_amended_layout_normalization "applegpu_g14s" 0 true
    [qFull50, kFull50, kFull50, maskStride2] oFull50
  have h2 := h.2.2.2.2.1 (by decide)
  rw [h2]
  decide

/-- Counterexample for C5: in a full-mode dispatch with a row-contiguous
mask of shape [1,1,9,16], the only mask-stride binding carries the mask's
leading three strides (144, 144, 16) unconditionally; the per-axis
conditional strides of the trailing three axes are (key 1, query 16,
head 0), and the bound value 144 equals none of them. -/
theorem C5_counterexample :
    ((eval_gpu "applegpu_g14s" (0 : Int) false [qFull9, qFull9, qFull9, maskFull9]
        qFull9).cmds.filter isMaskParamsCmd) = [Cmd.bytesMaskParams 144 144 16 5] ∧
    ((eval_gpu "applegpu_g14s" (0 : Int) false [qFull9, qFull9, qFull9, maskFull9]
        qFull9).cmds.filter isI32Cmd) = [] ∧
    (eval_gpu "applegpu_g14s" (0 : Int) false [qFull9, qFull9, qFull9, maskFull9]
        qFull9).mask = some maskFull9 ∧
    condStride maskFull9 1 = 1 ∧
    condStride maskFull9 2 = 16 ∧
    condStride maskFull9 3 = 0 ∧
    ((144 : Int) ≠ 1 ∧ (144 : Int) ≠ 16 ∧ (144 : Int) ≠ 0) := by
  decide

/-- C5 amended. The conditional trailing-axis mask strides (actual stride
when the extent exceeds 1, else 0, truncated to int32) are exactly what
the two vector dispatch paths bind (slots 12-14 single-pass, 14-16
two-pass); the full-mode dispatch instead binds the mask's strides at
indices 0, 1, 2 unconditionally. -/
theorem C5_amended_mask_strides (q k v out : MArray) (scale : Int) (dc : Bool)
    (m : MArray) (hnd : 3 ≤ m.ndim)
    (h1 : -(2 ^ 31) ≤ condStride m 1 ∧ condStride m 1 < 2 ^ 31)
    (h2 : -(2 ^ 31) ≤ condStride m 2 ∧ condStride m 2 < 2 ^ 31)
    (h3 : -(2 ^ 31) ≤ condStride m 3 ∧ condStride m 3 < 2 ^ 31) :
    maskKvSeqStride m = condStride m 1 ∧
    maskQSeqStride m = condStride m 2 ∧
    maskHeadStride m = condStride m 3 ∧
    Cmd.bytesI32 (maskKvSeqStride m) 12 ∈ sdpa_vector q k v out scale (some m) ∧
    Cmd.bytesI32 (maskQSeqStride m) 13 ∈ sdpa_vector q k v out scale (some m) ∧
    Cmd.bytesI32 (maskHeadStride m) 14 ∈ sdpa_vector q k v out scale (some m) ∧
    Cmd.bytesI32 (maskKvSeqStride m) 14 ∈ (sdpa_vector_2pass q k v out scale (some m)).1 ∧
    Cmd.bytesI32 (maskQSeqStride m) 15 ∈ (sdpa_vector_2pass q k v out scale (some m)).1 ∧
    Cmd.bytesI32 (maskHeadStride m) 16 ∈ (sdpa_vector_2pass q k v out scale (some m)).1 ∧
    Cmd.bytesMaskParams (m.strides.getD 0 0) (m.strides.getD 1 0)
      (m.strides.getD 2 0) 5 ∈
      sdpa_full_self_attention_metal q k v scale out dc (some m) := by
  have e1 : maskKvSeqStride m = condStride m 1 := by
    rw [maskKvSeqStride_eq m (by omega)]
    exact wrap32_eq_self _ h1.1 h1.2
  have e2 : maskQSeqStride m = condStride m 2 := by
    rw [maskQSeqStride_eq m (by omega)]
    exact wrap32_eq_self _ h2.1 h2.2
  have e3 : maskHeadStride m = condStride m 3 := by
    rw [maskHeadStride_eq m hnd]
    exact wrap32_eq_self _ h3.1 h3.2
  refine ⟨e1, e2, e3, ?_, ?_, ?_, ?_, ?_, ?_, ?_⟩ <;>
    simp [sdpa_vector, sdpa_vector_2pass, sdpa_full_self_attention_metal]

/-- Witness for C5 amended: at a broadcast mask of shape [1,1,2,4] the
vector paths bind key stride 1, query stride 4 and head stride 0. -/
theorem C5_amended_mask_strides_witness :
    maskKvSeqStride maskBcast = 1 ∧ maskQSeqStride maskBcast = 4 ∧
    maskHeadStride maskBcast = 0 := by
  have h := C5_amended_mask_strides qVec4 kVec4 kVec4 oVec4 0 false maskBcast
    (by decide) (by decide) (by decide) (by decide)
  exact ⟨h.1.trans (by decide), h.2.1.trans (by decide), h.2.2.1.trans (by decide)⟩

end MlxSdpa
